import Mathlib

/-!
Verification development for the request-assembly and response-streaming
pipeline of `client.py` (a gRPC image-generation client).

The protobuf messages of the wire schema are shallowly embedded as Lean
structures holding exactly the fields the client reads or writes.  A field a
protobuf message leaves unset is modelled as `none`; a repeated field is a
`List`.  Python floats carry no arithmetic here (they are only tested for
truthiness and copied), so they are modelled as `Rat`, for which Python's
`if x:` is exactly `x ≠ 0`.  Images are opaque: the client only re-encodes
them to PNG bytes and ships them, so an image is modelled by an abstract
identity and the PNG serialization by the image itself.  Randomness
(`random.randrange`) and UUID minting (`uuid.uuid4`) are modelled by
threading explicit entropy: a `Nat` draw for the seed, and a supply
`us : Nat → Nat` of fresh UUIDs consumed in call order.
-/

/-- An image handed to the client by the caller (opaque: the client only
serializes it).  `alphaGray` is the `use_alpha` transformation of
`image_to_prompt` (split alpha, merge to RGB, invert), kept abstract. -/
inductive Image where
  | file (id : Nat)
  | alphaGray (im : Image)
deriving DecidableEq, Repr

/-- Channel selectors of `generation.ImageAdjustment_Channels`
(CHANNEL_R/G/B/A/CHANNEL_DISCARD). -/
inductive Channel where
  | r | g | b | a | discard
deriving DecidableEq, Repr

/-- The channel-remap payload of an ImageAdjustment. -/
structure ChannelsAdjustment where
  r : Channel
  g : Channel
  b : Channel
  a : Channel
deriving DecidableEq, Repr

/-- The image adjustments the client constructs: a channel remap, an invert,
or a depth inference (`generation.ImageAdjustment` oneof). -/
inductive ImageAdjustment where
  | channels (c : ChannelsAdjustment)
  | invert
  | depth
deriving DecidableEq, Repr

/-- Artifact types used by the client
(`generation.ARTIFACT_IMAGE/_MASK/_DEPTH/_LORA/_CLASSIFICATIONS/_TEXT`). -/
inductive ArtifactType where
  | image | mask | depth | lora | classifications | text | other
deriving DecidableEq, Repr

/-- The artifact stage of a reference; the client only ever uses
`ARTIFACT_AFTER_ADJUSTMENTS`. -/
inductive ArtifactStage where
  | afterAdjustments
deriving DecidableEq, Repr

/-- `generation.ArtifactReference`: a back-reference to another prompt's
artifact by UUID. -/
structure ArtifactReference where
  uuid : Nat
  stage : ArtifactStage
deriving DecidableEq, Repr

/-- `generation.LoraWeight`. -/
structure LoraWeight where
  model_name : String
  weight : Rat
deriving DecidableEq, Repr

/-- `generation.Lora`.  The `lora` field holds
`serialize_safetensor(safe_open(path))`; the tensor payload is opaque to the
client, so it is modelled by the path it was loaded from. -/
structure Lora where
  lora : String
  weights : List LoraWeight
deriving DecidableEq, Repr

/-- `generation.Artifact` as constructed inside a request: type, optional
minted UUID, optional inline binary (the PNG-encoded image), optional
reference, adjustments, optional LoRA payload. -/
structure ReqArtifact where
  type : ArtifactType
  uuid : Option Nat := none
  binary : Option Image := none
  ref : Option ArtifactReference := none
  adjustments : List ImageAdjustment := []
  lora : Option Lora := none
deriving DecidableEq, Repr

/-- `generation.PromptParameters` (only `init` and `weight` are used). -/
structure PromptParameters where
  init : Bool := false
  weight : Option Rat := none
deriving DecidableEq, Repr

/-- `generation.Prompt`: weighted text or an artifact. -/
structure Prompt where
  text : Option String := none
  artifact : Option ReqArtifact := none
  parameters : Option PromptParameters := none
deriving DecidableEq, Repr

/-- The Python exceptions raised by the pipeline.  `invalidArgument` is the
spec's `InvalidArgument` taxon (raised as `ValueError` in the source);
`typeError` is Python's `TypeError`. -/
inductive GenError where
  | invalidArgument
  | typeError
deriving DecidableEq, Repr

/-- `image_to_prompt` without its init/mask guard: encode the image (after
the optional alpha split-and-invert), mint the given UUID, pick the artifact
type (`mask` overrides `image`, `depth` overrides both, in source order),
and wrap into a Prompt with `PromptParameters(init=init)`. -/
def mk_image_prompt (artifact_uuid : Nat) (im : Image)
    (init mask depth use_alpha : Bool) : Prompt :=
  let im := if use_alpha then Image.alphaGray im else im
  let ty := ArtifactType.image
  let ty := if mask then ArtifactType.mask else ty
  let ty := if depth then ArtifactType.depth else ty
  { artifact := some { type := ty, uuid := some artifact_uuid, binary := some im },
    parameters := some { init := init } }

/-- `image_to_prompt` (client.py lines 128-158): raises `ValueError` when
`init` and `mask` are both set, otherwise builds the inline-binary prompt. -/
def image_to_prompt (artifact_uuid : Nat) (im : Image)
    (init mask depth use_alpha : Bool) : Except GenError Prompt :=
  if init && mask then .error .invalidArgument
  else .ok (mk_image_prompt artifact_uuid im init mask depth use_alpha)

/-- `ref_to_prompt` (client.py lines 161-175): a prompt whose artifact is a
reference (no inline binary, no minted UUID of its own) to `ref_uuid` at
stage `ARTIFACT_AFTER_ADJUSTMENTS`; type selection as in `image_to_prompt`. -/
def ref_to_prompt (ref_uuid : Nat) (mask depth : Bool) : Prompt :=
  let ty := ArtifactType.image
  let ty := if mask then ArtifactType.mask else ty
  let ty := if depth then ArtifactType.depth else ty
  { artifact :=
      some { type := ty
             ref := some { uuid := ref_uuid, stage := ArtifactStage.afterAdjustments } } }

/-- `lora_to_prompt` (client.py lines 178-198).  The Python function
mutates the caller's `weights` list in place with `weights.pop(0)` (guarded
by `if weights:` twice); the mutation is modelled by returning, next to the
prompt, the list object's state after the call.  The first popped value is
named "unet", the second "text_encoder". -/
def lora_to_prompt (path : String) (weights : List Rat) : Prompt × List Rat :=
  let lw : List LoraWeight := []
  let (lw, weights) :=
    match weights with
    | w :: rest => (lw ++ [({ model_name := "unet", weight := w } : LoraWeight)], rest)
    | [] => (lw, weights)
  let (lw, weights) :=
    match weights with
    | w :: rest => (lw ++ [({ model_name := "text_encoder", weight := w } : LoraWeight)], rest)
    | [] => (lw, weights)
  ({ artifact :=
       some { type := ArtifactType.lora
              lora := some { lora := path, weights := lw } } }, weights)

/-- The seed argument of `generate`: a scalar int or a sequence. -/
inductive SeedInput where
  | int (n : Nat)
  | list (l : List Nat)
deriving DecidableEq, Repr

/-- Python truthiness of the seed argument: `0` and `[]` are falsy. -/
def seedTruthy : SeedInput → Bool
  | .int n => n != 0
  | .list l => !l.isEmpty

/-- `random.randrange(lo, hi)` modelled by consuming an entropy draw `r` and
mapping it onto the support `[lo, hi)`; for uniform entropy the result is
the library's uniform value in `[lo, hi)`. -/
def randrange (lo hi r : Nat) : Nat := lo + r % (hi - lo)

/-- Seed normalization in `generate` (client.py lines 394-399):
`if not seed: seed = [random.randrange(0, 4294967295)]`, else a scalar int
is wrapped, else the sequence is listed. -/
def resolveSeed (s : SeedInput) (rdraw : Nat) : List Nat :=
  if !seedTruthy s then [randrange 0 4294967295 rdraw]
  else
    match s with
    | .int n => [n]
    | .list l => l

/-- One element of a prompt-list argument: a string, a structured Prompt, or
a value of any other type (which `generate` rejects). -/
inductive PromptItem where
  | str (s : String)
  | struct (p : Prompt)
  | invalid
deriving DecidableEq, Repr

/-- The `prompt` argument of `generate`: a scalar string, a scalar Prompt,
or a sequence of items. -/
inductive PromptArg where
  | scalarStr (s : String)
  | scalarPrompt (p : Prompt)
  | items (l : List PromptItem)
deriving DecidableEq, Repr

/-- The body of `generate`'s prompt loop: a string becomes
`generation.Prompt(text=p)`, a Prompt passes through, anything else raises
`TypeError`. -/
def coercePromptItem : PromptItem → Except GenError Prompt
  | .str s => .ok { text := some s }
  | .struct p => .ok p
  | .invalid => .error .typeError

/-- Prompt normalization in `generate` (client.py lines 401-409): a scalar
string or Prompt is wrapped into a one-element list, then each element is
coerced.  When `prompt is None` (possible when an init image is present),
the Python `for p in prompt` raises `TypeError`. -/
def normalizePrompts : Option PromptArg → Except GenError (List Prompt)
  | none => .error .typeError
  | some (.scalarStr s) => .ok [{ text := some s }]
  | some (.scalarPrompt p) => .ok [p]
  | some (.items l) => l.mapM coercePromptItem

/-- The negative prompt (client.py lines 411-417): appended only when the
string is truthy, with weight −1. -/
def negativePromptList : Option String → List Prompt
  | some s =>
      if s = "" then []
      else [{ text := some s, parameters := some { weight := some (-1) } }]
  | none => []

/-- `generation.ChurnSettings`. -/
structure ChurnSettings where
  churn : Rat
  churn_tmin : Option Rat := none
  churn_tmax : Option Rat := none
deriving DecidableEq, Repr

/-- `generation.SigmaParameters`. -/
structure SigmaParameters where
  sigma_min : Option Rat := none
  sigma_max : Option Rat := none
  karras_rho : Option Rat := none
deriving DecidableEq, Repr

/-- `generation.SamplerParameters` as assembled by the client: `cfg_scale`
always, the rest optional. -/
structure SamplerParameters where
  cfg_scale : Rat
  eta : Option Rat := none
  noise_type : Option Nat := none
  churn : Option ChurnSettings := none
  sigma : Option SigmaParameters := none
deriving DecidableEq, Repr

/-- `generation.ScheduleParameters` (fields `start` and `end` in the
schema; `end` is reserved in Lean, hence `end_`). -/
structure ScheduleParameters where
  start : Rat
  end_ : Rat
deriving DecidableEq, Repr

/-- `generation.Model` (only `alias` is used; `alias` is a reserved word in
Lean, hence `alias_`). -/
structure GuidanceModel where
  alias_ : String
deriving DecidableEq, Repr

/-- `generation.CutoutParameters` (only `count` is used). -/
structure CutoutParameters where
  count : Nat
deriving DecidableEq, Repr

/-- `generation.GuidanceInstanceParameters`. -/
structure GuidanceInstanceParameters where
  guidance_strength : Option Rat := none
  models : Option (List GuidanceModel) := none
  cutouts : Option CutoutParameters := none
  prompt : Option Prompt := none
deriving DecidableEq, Repr

/-- `generation.GuidanceParameters`. -/
structure GuidanceParameters where
  guidance_preset : Nat
  instances : List GuidanceInstanceParameters
deriving DecidableEq, Repr

/-- `generation.HiresFixParameters`. -/
structure HiresFixParameters where
  enable : Bool
  oos_fraction : Option Rat := none
deriving DecidableEq, Repr

/-- `generation.TransformType` (only the diffusion sampler enum is used). -/
structure TransformType where
  diffusion : Nat
deriving DecidableEq, Repr

/-- `generation.StepParameter` as assembled: `scaled_step=0`, a sampler
block, and the optional schedule and guidance blocks. -/
structure StepParameter where
  scaled_step : Nat
  sampler : SamplerParameters
  schedule : Option ScheduleParameters := none
  guidance : Option GuidanceParameters := none
deriving DecidableEq, Repr

/-- `generation.ImageParameters`. -/
structure ImageParameters where
  transform : TransformType
  height : Nat
  width : Nat
  seed : List Nat
  steps : Nat
  samples : Nat
  parameters : List StepParameter
  hires : Option HiresFixParameters := none
  tiling : Bool := false
deriving DecidableEq, Repr

/-- What `generate` hands to `emit_request` / `emit_async_request`: the
assembled prompt list and image parameters. -/
structure GenerateResult where
  prompts : List Prompt
  image_parameters : ImageParameters
deriving DecidableEq, Repr

/-- The `guidance_prompt` argument of `generate`. -/
inductive GuidancePromptArg where
  | str (s : String)
  | struct (p : Prompt)
  | invalid
deriving DecidableEq, Repr

/-- The normalized guidance prompt: a converted/passed-through Prompt, or a
falsy (empty) string that the `if guidance_prompt:` guard skipped and that
would fail protobuf assignment only if a guidance block is later built. -/
inductive GuidancePromptNorm where
  | prompt (p : Prompt)
  | rawEmptyStr
deriving DecidableEq, Repr

/-- `guidance_prompt` normalization (client.py lines 499-503): a truthy
string becomes `Prompt(text=...)`, a Prompt passes, a truthy value of any
other type raises `ValueError`; an empty string is skipped by the truthiness
guard and stays a raw string. -/
def normalizeGuidancePrompt : Option GuidancePromptArg →
    Except GenError (Option GuidancePromptNorm)
  | none => .ok none
  | some (.str s) =>
      if s = "" then .ok (some .rawEmptyStr)
      else .ok (some (.prompt { text := some s }))
  | some (.struct p) => .ok (some (.prompt p))
  | some (.invalid) => .error .invalidArgument

/-- Default sampler enum (`generation.SAMPLER_K_LMS`). The numeric value is
opaque to the client. -/
def SAMPLER_K_LMS : Nat := 7

/-- `generation.GUIDANCE_PRESET_NONE`, the zero value of the preset enum. -/
def GUIDANCE_PRESET_NONE : Nat := 0

/-- The keyword arguments of `generate` (client.py lines 323-360), with the
source's defaults.  Optional floats are `Option Rat` (default `None`);
`eta`, `cfg_scale` and the schedules are plain floats with non-None
defaults, as in the source. -/
structure GenerateArgs where
  prompt : Option PromptArg := none
  negative_prompt : Option String := none
  init_image : Option Image := none
  mask_image : Option Image := none
  mask_from_image_alpha : Bool := false
  depth_image : Option Image := none
  depth_from_image : Bool := false
  height : Nat := 512
  width : Nat := 512
  start_schedule : Rat := 1
  end_schedule : Rat := 1/100
  cfg_scale : Rat := 7
  eta : Rat := 0
  churn : Option Rat := none
  churn_tmin : Option Rat := none
  churn_tmax : Option Rat := none
  sigma_min : Option Rat := none
  sigma_max : Option Rat := none
  karras_rho : Option Rat := none
  noise_type : Option Nat := none
  sampler : Nat := SAMPLER_K_LMS
  steps : Nat := 50
  seed : SeedInput := SeedInput.int 0
  samples : Nat := 1
  guidance_preset : Nat := GUIDANCE_PRESET_NONE
  guidance_cuts : Nat := 0
  guidance_strength : Option Rat := none
  guidance_prompt : Option GuidancePromptArg := none
  guidance_models : Option (List String) := none
  hires_fix : Option Bool := none
  hires_oos_fraction : Option Rat := none
  tiling : Bool := false
  lora : Option (List (String × List Rat)) := none
deriving DecidableEq, Repr

/-- Python truthiness of an optional float used in the `if x:` includes of
the assembler: kept only when present and nonzero. -/
def truthyOpt : Option Rat → Option Rat
  | some v => if v = 0 then none else some v
  | none => none

/-- The sampler-parameters dict (client.py lines 419-445): `cfg_scale`
always; `eta` and `noise_type` under `if` truthiness; the churn sub-block
only when `churn` is truthy, with `churn_tmin`/`churn_tmax` under their own
truthiness guards; the sigma sub-block unconditionally, its fields under
truthiness guards. -/
def buildSamplerParameters (args : GenerateArgs) : SamplerParameters :=
  { cfg_scale := args.cfg_scale
    eta := if args.eta = 0 then none else some args.eta
    noise_type :=
      match args.noise_type with
      | some n => if n = 0 then none else some n
      | none => none
    churn :=
      match args.churn with
      | some c =>
          if c = 0 then none
          else some { churn := c, churn_tmin := truthyOpt args.churn_tmin,
                      churn_tmax := truthyOpt args.churn_tmax }
      | none => none
    sigma := some { sigma_min := truthyOpt args.sigma_min,
                    sigma_max := truthyOpt args.sigma_max,
                    karras_rho := truthyOpt args.karras_rho } }

/-- `init_image_prompt.artifact.uuid` as read by the source when building a
reference (protobuf attribute access; an absent artifact or uuid reads as
the field default). -/
def promptUuid (p : Prompt) : Nat :=
  match p.artifact with
  | some a => a.uuid.getD 0
  | none => 0

/-- The synthesized mask prompt of the `mask_from_image_alpha` branch
(client.py lines 463-481): `ref_to_prompt(init uuid, mask=True)` with two
adjustments appended in order: channels (r=g=b=A, a=DISCARD), then invert. -/
def maskAlphaPrompt (init_uuid : Nat) : Prompt :=
  let mp := ref_to_prompt init_uuid true false
  { mp with artifact := mp.artifact.map (fun a =>
      { a with adjustments := a.adjustments ++
          [ImageAdjustment.channels
             { r := Channel.a, g := Channel.a, b := Channel.a, a := Channel.discard },
           ImageAdjustment.invert] }) }

/-- The synthesized depth prompt of the `depth_from_image` branch
(client.py lines 486-493): `ref_to_prompt(init uuid, depth=True)` with a
depth adjustment appended. -/
def depthRefPrompt (init_uuid : Nat) : Prompt :=
  let dp := ref_to_prompt init_uuid false true
  { dp with artifact := dp.artifact.map (fun a =>
      { a with adjustments := a.adjustments ++ [ImageAdjustment.depth] }) }

/-- The init-image section of `generate` (client.py lines 451-493), run only
when an init image exists: set the schedule block, append the init-image
prompt, then the mask prompt (direct mask image, elif the alpha-reference
mask), then the direct depth-image prompt and/or the depth-reference
prompt.  `us` supplies the UUIDs minted by each `image_to_prompt` call in
call order. -/
def buildInitSection (us : Nat → Nat) (args : GenerateArgs)
    (prompts : List Prompt) :
    Except GenError (List Prompt × Option ScheduleParameters) :=
  match args.init_image with
  | none => .ok (prompts, none)
  | some im => do
    let schedule : Option ScheduleParameters :=
      some { start := args.start_schedule, end_ := args.end_schedule }
    let init_image_prompt ← image_to_prompt (us 0) im true false false false
    let prompts := prompts ++ [init_image_prompt]
    let (prompts, nextU) ←
      match args.mask_image with
      | some mim => do
          let mp ← image_to_prompt (us 1) mim false true false false
          pure (prompts ++ [mp], 2)
      | none =>
          if args.mask_from_image_alpha then
            pure (prompts ++ [maskAlphaPrompt (promptUuid init_image_prompt)], 1)
          else
            pure (prompts, 1)
    let (prompts, _nextU) ←
      match args.depth_image with
      | some dim => do
          let dp ← image_to_prompt (us nextU) dim false false true false
          pure (prompts ++ [dp], nextU + 1)
      | none => pure (prompts, nextU)
    let prompts :=
      if args.depth_from_image then
        prompts ++ [depthRefPrompt (promptUuid init_image_prompt)]
      else prompts
    .ok (prompts, schedule)

/-- The LoRA prompts (client.py lines 495-497): one per supplied entry, the
prompt component of `lora_to_prompt`. -/
def loraPromptList : Option (List (String × List Rat)) → List Prompt
  | some l => l.map (fun pw => (lora_to_prompt pw.1 pw.2).1)
  | none => []

/-- The guidance block (client.py lines 507-535), built only when the preset
is non-default or an explicit strength is given: optional named models
(truthy list), optional cutouts (truthy count), and the normalized guidance
prompt - which, when absent, is passed as `None` (left unset); an
unconverted falsy string would fail the protobuf constructor. -/
def buildGuidance (args : GenerateArgs) (gpn : Option GuidancePromptNorm) :
    Except GenError (Option GuidanceParameters) :=
  if (args.guidance_preset != GUIDANCE_PRESET_NONE) || args.guidance_strength.isSome then do
    let guiders : Option (List GuidanceModel) :=
      match args.guidance_models with
      | some l => if l.isEmpty then none else some (l.map (fun m => { alias_ := m }))
      | none => none
    let cutouts : Option CutoutParameters :=
      if args.guidance_cuts != 0 then some { count := args.guidance_cuts } else none
    let gprompt : Option Prompt ←
      match gpn with
      | some (.prompt p) => pure (some p)
      | some .rawEmptyStr => .error .typeError
      | none => pure none
    .ok (some { guidance_preset := args.guidance_preset,
                instances := [{ guidance_strength := args.guidance_strength,
                                models := guiders, cutouts := cutouts,
                                prompt := gprompt }] })
  else .ok none

/-- The hi-res-fix block (client.py lines 537-547): if the flag is unset but
an out-of-square fraction is given, the flag is forced true; the block
exists only when the (possibly forced) flag is set, and carries the
fraction only when it was given. -/
def buildHires (args : GenerateArgs) : Option HiresFixParameters :=
  let hires_fix :=
    if args.hires_fix.isNone && args.hires_oos_fraction.isSome then some true
    else args.hires_fix
  match hires_fix with
  | some hf => some { enable := hf, oos_fraction := args.hires_oos_fraction }
  | none => none

/-- The assembly performed by `generate` (client.py lines 386-559), in
source order: the two validation checks, seed normalization, prompt
normalization, the negative prompt, the sampler-parameters dict, the
init/schedule/mask/depth section, the LoRA prompts, guidance-prompt
normalization and the guidance block, the hi-res-fix block, and finally the
`ImageParameters` with the single `StepParameter`. -/
def generate (us : Nat → Nat) (rdraw : Nat) (args : GenerateArgs) :
    Except GenError GenerateResult :=
  if args.prompt.isNone && args.init_image.isNone then
    .error .invalidArgument
  else if args.mask_image.isSome && args.init_image.isNone then
    .error .invalidArgument
  else do
    let seed := resolveSeed args.seed rdraw
    let prompts ← normalizePrompts args.prompt
    let prompts := prompts ++ negativePromptList args.negative_prompt
    let sampler_parameters := buildSamplerParameters args
    let (prompts, schedule) ← buildInitSection us args prompts
    let prompts := prompts ++ loraPromptList args.lora
    let gpn ← normalizeGuidancePrompt args.guidance_prompt
    let guidance ← buildGuidance args gpn
    let hires := buildHires args
    .ok { prompts := prompts
          image_parameters :=
            { transform := { diffusion := args.sampler }
              height := args.height
              width := args.width
              seed := seed
              steps := args.steps
              samples := args.samples
              parameters := [{ scaled_step := 0, sampler := sampler_parameters,
                               schedule := schedule, guidance := guidance }]
              hires := hires
              tiling := args.tiling } }

/-- `generation.Request` as built by `emit_request`/`emit_async_request`. -/
structure Request where
  engine_id : String
  request_id : String
  prompt : List Prompt
  image : ImageParameters
deriving DecidableEq, Repr

/-- The request construction of `emit_request`/`emit_async_request`
(client.py lines 569-586): a falsy `request_id` is replaced by a fresh
UUID, a falsy `engine_id` by the client's configured engine. -/
def emit_request_build (self_engine fresh_request_id : String)
    (engine_id request_id : Option String) (res : GenerateResult) : Request :=
  let request_id :=
    match request_id with
    | some rid => if rid = "" then fresh_request_id else rid
    | none => fresh_request_id
  let engine_id :=
    match engine_id with
    | some e => if e = "" then self_engine else e
    | none => self_engine
  { engine_id := engine_id, request_id := request_id,
    prompt := res.prompts, image := res.image_parameters }

/-- The requests handed to the transport by one `generate` call (client.py
lines 561-566 plus the `stub.Generate`/`stub.AsyncGenerate` call): one when
assembly succeeds, none when it raises. -/
def emittedRequests (us : Nat → Nat) (rdraw : Nat) (args : GenerateArgs)
    (self_engine fresh_request_id : String) : List Request :=
  match generate us rdraw args with
  | .ok res => [emit_request_build self_engine fresh_request_id none none res]
  | .error _ => []

/-- `generation.Artifact` as read from the response stream: only the fields
the demultiplexer consumes (type, mime, inline binary).  The JSON rendering
and raw-message serialization of the write path are file I/O and therefore
out of scope; the demultiplexer's yielded pairs never contain them. -/
structure RespArtifact where
  type : ArtifactType
  mime : String := ""
  binary : List Nat := []
deriving DecidableEq, Repr

/-- `generation.Answer`: one unit of the response stream. -/
structure Answer where
  request_id : String := ""
  answer_id : String := ""
  artifacts : List RespArtifact := []
deriving DecidableEq, Repr

/-- `mimetypes.guess_extension` of the Python standard library, for the
image MIME types this client receives; unknown types give `None`. -/
def guess_extension (mime : String) : Option String :=
  if mime = "image/png" then some ".png"
  else if mime = "image/jpeg" then some ".jpg"
  else if mime = "image/webp" then some ".webp"
  else none

/-- The extension branch of `process_artifacts_from_answers` (client.py
lines 223-234): images use the MIME-derived extension (Python renders a
`None` lookup result as the string "None" in the f-string), classification
results and text use ".pb.json", everything else ".pb". -/
def artifactExt (a : RespArtifact) : String :=
  if a.type = ArtifactType.image then
    match guess_extension a.mime with
    | some e => e
    | none => "None"
  else if a.type = ArtifactType.classifications then ".pb.json"
  else if a.type = ArtifactType.text then ".pb.json"
  else ".pb"

/-- The output identity of one artifact:
`f"{prefix}-{resp.request_id}-{resp.answer_id}-{idx}"` plus the extension
(client.py lines 222 and 235). -/
def artifactOutPath (pfx : String) (resp : Answer) (idx : Nat)
    (a : RespArtifact) : String :=
  pfx ++ "-" ++ resp.request_id ++ "-" ++ resp.answer_id ++ "-" ++ toString idx
    ++ artifactExt a

/-- The inner loop of `process_artifacts_from_answers`: one yielded
(out_p, artifact) pair per artifact of the answer, `idx` incremented after
every yield. -/
def processAnswerArtifacts (pfx : String) (resp : Answer) :
    List RespArtifact → Nat → List (String × RespArtifact)
  | [], _ => []
  | a :: rest, idx =>
      (artifactOutPath pfx resp idx a, a) :: processAnswerArtifacts pfx resp rest (idx + 1)

/-- The outer loop of `process_artifacts_from_answers`, carrying the
per-call index across answers. -/
def processAnswersAux (pfx : String) :
    List Answer → Nat → List (String × RespArtifact)
  | [], _ => []
  | resp :: rest, idx =>
      processAnswerArtifacts pfx resp resp.artifacts idx
        ++ processAnswersAux pfx rest (idx + resp.artifacts.length)

/-- `process_artifacts_from_answers` (client.py lines 201-246) restricted to
what the generator yields: the (filename, artifact) pairs, `idx` starting
at 0.  Writing to disk (`write=True`) names files identically and is pure
I/O on the already-decided path. -/
def process_artifacts_from_answers (pfx : String) (answers : List Answer) :
    List (String × RespArtifact) :=
  processAnswersAux pfx answers 0

/-- The demultiplexer as the spec describes it: flatten the artifacts in
encounter order with their owning answer, enumerate them with one
monotonically increasing per-call index, and name each
`{prefix}-{request_id}-{answer_id}-{index}{ext}`. -/
def demuxSpec (pfx : String) (answers : List Answer) :
    List (String × RespArtifact) :=
  ((answers.flatMap (fun resp => resp.artifacts.map (fun a => (resp, a)))).enum).map
    (fun ia => (artifactOutPath pfx ia.2.1 ia.1 ia.2.2, ia.2.2))

/-- The poll response of `stub.AsyncResult`: a repeated `answer` field and a
`complete` flag. -/
structure AsyncAnswers where
  answer : List Answer
  complete : Bool
deriving DecidableEq, Repr

/-- The polling loop of `emit_async_request` (client.py lines 656-664),
step-indexed by poll count: iteration k polls (`polls k`), yields every
answer of the poll response, checks `answers.complete` - which only prints
"Done"; no break or return follows - sleeps 5 seconds, and re-enters the
loop unconditionally.  `emit_async_poll_loop polls k` is everything the
generator has yielded after k poll iterations. -/
def emit_async_poll_loop (polls : Nat → AsyncAnswers) : Nat → List Answer
  | 0 => []
  | k + 1 => emit_async_poll_loop polls k ++ (polls k).answer

/-- A poll-response sequence realizing the spec's async scenario: polls 0
and 1 are non-complete with one answer each, every poll from 2 on is the
completing response with one answer (the server keeps answering the
now-finished handle on each further poll). -/
def c1polls : Nat → AsyncAnswers := fun k =>
  if k < 2 then
    { answer := [{ request_id := "req", answer_id := toString k,
                   artifacts := [{ type := ArtifactType.image, mime := "image/png" }] }],
      complete := false }
  else
    { answer := [{ request_id := "req", answer_id := "final",
                   artifacts := [{ type := ArtifactType.image, mime := "image/png" }] }],
      complete := true }

/-- Closed form of the prompts appended by the init-image section: the
init-image prompt, then the mask prompt (direct image, else the
alpha-reference mask when requested), then the direct depth-image prompt
and/or the depth-reference prompt.  UUIDs: `us 0` for the init image,
`us 1` for a direct mask image, the next free index for a direct depth
image. -/
def initSectionPrompts (us : Nat → Nat) (args : GenerateArgs) : List Prompt :=
  match args.init_image with
  | none => []
  | some im =>
    let initP := mk_image_prompt (us 0) im true false false false
    let maskList : List Prompt :=
      match args.mask_image with
      | some mim => [mk_image_prompt (us 1) mim false true false false]
      | none => if args.mask_from_image_alpha then [maskAlphaPrompt (us 0)] else []
    let depthU := if args.mask_image.isSome then 2 else 1
    let depthList : List Prompt :=
      (match args.depth_image with
       | some dim => [mk_image_prompt (us depthU) dim false false true false]
       | none => [])
      ++ (if args.depth_from_image then [depthRefPrompt (us 0)] else [])
    initP :: (maskList ++ depthList)

/-- The schedule block produced by the init-image section. -/
def scheduleOf (args : GenerateArgs) : Option ScheduleParameters :=
  if args.init_image.isSome then
    some { start := args.start_schedule, end_ := args.end_schedule }
  else none

/-- The image parameters a successful `generate` run assembles, given the
guidance block. -/
def assembledImageParameters (r : Nat) (args : GenerateArgs)
    (guidance : Option GuidanceParameters) : ImageParameters :=
  { transform := { diffusion := args.sampler }
    height := args.height
    width := args.width
    seed := resolveSeed args.seed r
    steps := args.steps
    samples := args.samples
    parameters := [{ scaled_step := 0, sampler := buildSamplerParameters args,
                     schedule := scheduleOf args, guidance := guidance }]
    hires := buildHires args
    tiling := args.tiling }

/-- The named weights carried by a LoRA prompt. -/
def promptLoraWeights (p : Prompt) : List LoraWeight :=
  match p.artifact with
  | some a =>
      match a.lora with
      | some l => l.weights
      | none => []
  | none => []

/-- Whether a prompt carries a depth-typed artifact. -/
def isDepthPrompt (p : Prompt) : Bool :=
  match p.artifact with
  | some a => a.type == ArtifactType.depth
  | none => false

/-- Whether a prompt carries a mask-typed artifact. -/
def isMaskPrompt (p : Prompt) : Bool :=
  match p.artifact with
  | some a => a.type == ArtifactType.mask
  | none => false

/-- A fallback result used to read a successful `generate` run off its
`Except` value at concrete inputs. -/
def emptyResult : GenerateResult :=
  { prompts := []
    image_parameters := { transform := { diffusion := 0 }, height := 0, width := 0,
                          seed := [], steps := 0, samples := 0, parameters := [] } }

/-- The result of a successful `generate` run (the fallback on error). -/
def resultOf (us : Nat → Nat) (r : Nat) (args : GenerateArgs) : GenerateResult :=
  match generate us r args with
  | .ok res => res
  | .error _ => emptyResult

/-- Arguments refuting the claimed presence-iff-constituent-supplied
contract on several blocks at once: a start schedule, a churn tmin and a
guidance cut count are supplied, no init image, no churn value, no preset
or strength, no sigma field. -/
def c4args : GenerateArgs :=
  { prompt := some (PromptArg.scalarStr "x"), start_schedule := 7/10,
    guidance_cuts := 3, churn_tmin := some (1/2) }

/-- Arguments for the sub-block presence witness: init image, truthy churn,
a guidance strength, an out-of-square fraction. -/
def c4wargs : GenerateArgs :=
  { prompt := some (PromptArg.scalarStr "w"), init_image := some (Image.file 1),
    churn := some (1/2), guidance_strength := some (1/4),
    hires_oos_fraction := some (3/5) }

/-- Arguments refuting the sampler-block contract: a churn value of 0.0 is
supplied (a supplied field), and no sigma field is supplied. -/
def c6args : GenerateArgs :=
  { prompt := some (PromptArg.scalarStr "x"), churn := some 0 }

/-- Arguments for the sampler-block witness: eta, a truthy churn with one
truthy and one zero bound, a noise type, one sigma field. -/
def c6wargs : GenerateArgs :=
  { prompt := some (PromptArg.scalarStr "w"), eta := 1/10, churn := some (1/2),
    churn_tmin := some 0, churn_tmax := some (4/5), noise_type := some 1,
    sigma_max := some 2 }

/-- Arguments refuting the claimed guidance-prompt default: a main prompt
"hello", an explicit guidance strength, no guidance prompt. -/
def c3args : GenerateArgs :=
  { prompt := some (PromptArg.scalarStr "hello"), guidance_strength := some (1/4) }

/-- Arguments refuting the depth-prompt claim: a depth image is supplied
but there is no init image. -/
def c5args : GenerateArgs :=
  { prompt := some (PromptArg.scalarStr "x"), depth_image := some (Image.file 1) }

/-- Arguments for the depth-prompt witness: init image, depth image and
depth inference both requested. -/
def c5wargs : GenerateArgs :=
  { prompt := some (PromptArg.scalarStr "w"), init_image := some (Image.file 1),
    depth_image := some (Image.file 2), depth_from_image := true }

/-- Arguments for the alpha-mask witness: a text prompt, an init image,
mask-from-alpha requested, no direct mask. -/
def c8wargs : GenerateArgs :=
  { prompt := some (PromptArg.scalarStr "w"), init_image := some (Image.file 3),
    mask_from_image_alpha := true }

/-- The UUID read back from a prompt built by `mk_image_prompt` is the one
minted for it. -/
theorem promptUuid_mk (u : Nat) (im : Image) (i m d ua : Bool) :
    promptUuid (mk_image_prompt u im i m d ua) = u := rfl

/-- `buildInitSection` never fails and appends exactly
`initSectionPrompts`, with the schedule block present exactly when an init
image exists. -/
theorem buildInitSection_eq (us : Nat → Nat) (args : GenerateArgs)
    (prompts : List Prompt) :
    buildInitSection us args prompts =
      .ok (prompts ++ initSectionPrompts us args, scheduleOf args) := by
  unfold buildInitSection initSectionPrompts scheduleOf
  cases h : args.init_image with
  | none => simp
  | some im =>
    cases hm : args.mask_image <;> cases hd : args.depth_image <;>
      cases hma : args.mask_from_image_alpha <;> cases hdf : args.depth_from_image <;>
        simp [image_to_prompt, promptUuid_mk, Except.bind, bind, pure, Except.pure]

/-- Decomposition of a successful `generate` run: the prompt list is the
normalized prompts, the negative prompt, the init section, and the LoRA
prompts, in that order; the image parameters carry the single step block
with the sampler, schedule, guidance and hi-res-fix sub-blocks. -/
theorem generate_ok_parts (us : Nat → Nat) (r : Nat) (args : GenerateArgs)
    (res : GenerateResult) (hok : generate us r args = .ok res) :
    ∃ ps0 gpn guidance,
      normalizePrompts args.prompt = .ok ps0 ∧
      normalizeGuidancePrompt args.guidance_prompt = .ok gpn ∧
      buildGuidance args gpn = .ok guidance ∧
      res = { prompts := ps0 ++ negativePromptList args.negative_prompt
                           ++ initSectionPrompts us args ++ loraPromptList args.lora,
              image_parameters := assembledImageParameters r args guidance } := by
  unfold generate at hok
  split at hok
  · exact absurd hok (by simp)
  split at hok
  · exact absurd hok (by simp)
  cases hps : normalizePrompts args.prompt with
  | error e => simp only [hps, bind, Except.bind] at hok; cases hok
  | ok ps0 =>
    simp only [hps, bind, Except.bind, buildInitSection_eq] at hok
    cases hgp : normalizeGuidancePrompt args.guidance_prompt with
    | error e => simp only [hgp] at hok; cases hok
    | ok gpn =>
      simp only [hgp] at hok
      cases hg : buildGuidance args gpn with
      | error e => simp only [hg] at hok; cases hok
      | ok guidance =>
        simp only [hg, Except.ok.injEq] at hok
        refine ⟨ps0, gpn, guidance, rfl, rfl, hg, ?_⟩
        rw [← hok]
        simp [assembledImageParameters, scheduleOf, List.append_assoc]

/-- C1: the polling loop of `emit_async_request` does NOT terminate when a
poll response signals completion.  With polls 0 and 1 non-complete and poll
2 the completing response, one answer each, the loop has yielded the
claimed three answers after three iterations - but the body only prints
"Done" on `answers.complete` and falls through to the sleep, so a fourth
poll happens and a fourth answer is yielded. -/
theorem async_loop_yields_past_completion :
    (emit_async_poll_loop c1polls 3).length = 3 ∧
    (c1polls 2).complete = true ∧
    (emit_async_poll_loop c1polls 4).length = 4 := by
  refine ⟨rfl, rfl, rfl⟩

/-- C2 counterexample: the support of the seed drawn for a falsy seed input
is NOT the integer range [0, 2^32-1]: `random.randrange(0, 4294967295)`
excludes its upper bound, so 4294967295 = 2^32-1 is never produced.
Moreover an empty seed sequence is falsy in Python, so it is replaced by a
random draw rather than passed through unchanged. -/
theorem seed_claim_counterexample :
    ({ v : Nat | ∃ r, resolveSeed (SeedInput.int 0) r = [v] } ≠
      { v : Nat | v ≤ 4294967295 }) ∧
    resolveSeed (SeedInput.list []) 7 ≠ [] := by
  constructor
  · intro h
    have h2 : (4294967295 : Nat) ∈
        { v : Nat | ∃ r, resolveSeed (SeedInput.int 0) r = [v] } := by
      rw [h]; simp
    obtain ⟨r, hr⟩ := h2
    simp only [resolveSeed, seedTruthy, randrange] at hr
    simp at hr
    omega
  · decide

/-- C2 (amended): a truthy scalar seed is wrapped into a one-element
sequence; a non-empty sequence passes through unchanged; a falsy seed
(zero, absent, or an empty sequence) resolves to one element drawn from
`randrange(0, 4294967295)`, whose support is exactly [0, 2^32-2]. -/
theorem seed_normalization (n : Nat) (l : List Nat) (r : Nat)
    (hn : n ≠ 0) (hl : l ≠ []) :
    resolveSeed (SeedInput.int n) r = [n] ∧
    resolveSeed (SeedInput.list l) r = l ∧
    (∃ v, resolveSeed (SeedInput.int 0) r = [v] ∧ v < 4294967295) ∧
    { v : Nat | ∃ r2, resolveSeed (SeedInput.int 0) r2 = [v] } =
      { v : Nat | v < 4294967295 } := by
  refine ⟨by simp [resolveSeed, seedTruthy, hn], ?_, ?_, ?_⟩
  · simp [resolveSeed, seedTruthy, hl]
  · exact ⟨r % 4294967295, by simp [resolveSeed, seedTruthy, randrange],
      Nat.mod_lt _ (by norm_num)⟩
  · ext v
    simp only [Set.mem_setOf_eq, resolveSeed, seedTruthy, randrange]
    constructor
    · rintro ⟨r2, hr2⟩
      simp at hr2
      omega
    · intro hv
      exact ⟨v, by simp [Nat.mod_eq_of_lt hv]⟩

/-- C2 witness: the amended normalization at seed 5, sequence [1, 2],
entropy 0. -/
theorem seed_normalization_witness :
    resolveSeed (SeedInput.int 5) 0 = [5] ∧
    resolveSeed (SeedInput.list [1, 2]) 0 = [1, 2] ∧
    (∃ v, resolveSeed (SeedInput.int 0) 0 = [v] ∧ v < 4294967295) ∧
    { v : Nat | ∃ r2, resolveSeed (SeedInput.int 0) r2 = [v] } =
      { v : Nat | v < 4294967295 } :=
  seed_normalization 5 [1, 2] 0 (by decide) (by decide)

/-- C10: `lora_to_prompt` consumes (pops) the first `min 2 len` elements of
the caller's weights list - the list object retains only `ws.drop 2` after
the call - and the returned prompt names the removed values "unet" then
"text_encoder" in argument order; a second call on the same (mutated) list
therefore sees only the remaining values. -/
theorem lora_weights_consumption (path : String) (ws : List Rat) :
    (lora_to_prompt path ws).2 = ws.drop 2 ∧
    (lora_to_prompt path ws).2.length = ws.length - min 2 ws.length ∧
    promptLoraWeights (lora_to_prompt path ws).1 =
      (match ws with
       | [] => []
       | [w1] => [{ model_name := "unet", weight := w1 }]
       | w1 :: w2 :: _ => [{ model_name := "unet", weight := w1 },
                           { model_name := "text_encoder", weight := w2 }]) ∧
    promptLoraWeights (lora_to_prompt path ((lora_to_prompt path ws).2)).1 =
      (match ws.drop 2 with
       | [] => []
       | [w1] => [{ model_name := "unet", weight := w1 }]
       | w1 :: w2 :: _ => [{ model_name := "unet", weight := w1 },
                           { model_name := "text_encoder", weight := w2 }]) := by
  match ws with
  | [] => exact ⟨rfl, rfl, rfl, rfl⟩
  | [w1] => exact ⟨rfl, rfl, rfl, rfl⟩
  | w1 :: w2 :: rest =>
    refine ⟨rfl, ?_, rfl, ?_⟩
    · simp [lora_to_prompt]
    · match rest with
      | [] => exact rfl
      | [w3] => exact rfl
      | w3 :: w4 :: rest2 => exact rfl

/-- `processAnswerArtifacts` is the enumeration of one answer's artifacts
from the running index. -/
theorem processAnswerArtifacts_eq (pfx : String) (resp : Answer)
    (arts : List RespArtifact) (idx : Nat) :
    processAnswerArtifacts pfx resp arts idx =
      (arts.enumFrom idx).map (fun ia => (artifactOutPath pfx resp ia.1 ia.2, ia.2)) := by
  induction arts generalizing idx with
  | nil => simp [processAnswerArtifacts]
  | cons a rest ih => simp [processAnswerArtifacts, List.enumFrom, ih]

/-- `processAnswersAux` is the enumeration, from the running index, of all
artifacts flattened with their owning answers in encounter order. -/
theorem processAnswersAux_eq (pfx : String) (answers : List Answer) (idx : Nat) :
    processAnswersAux pfx answers idx =
      ((answers.flatMap (fun resp => resp.artifacts.map (fun a => (resp, a)))).enumFrom idx).map
        (fun ia => (artifactOutPath pfx ia.2.1 ia.1 ia.2.2, ia.2.2)) := by
  induction answers generalizing idx with
  | nil => simp [processAnswersAux]
  | cons resp rest ih =>
    simp only [processAnswersAux, List.flatMap_cons, List.enumFrom_append,
      List.map_append, ih, processAnswerArtifacts_eq, List.enumFrom_map,
      List.length_map, List.map_map]
    rfl

/-- C9: the demultiplexer yields exactly one (identity, artifact) pair per
artifact of the answer stream, in encounter order, the index component
increasing 0..N-1 across the whole call, each identity being
`{prefix}-{request_id}-{answer_id}-{index}` plus the type-determined
extension; in particular the number of yielded pairs is the total artifact
count. -/
theorem artifact_demux_identities (pfx : String) (answers : List Answer) :
    process_artifacts_from_answers pfx answers = demuxSpec pfx answers ∧
    (process_artifacts_from_answers pfx answers).length =
      (answers.map (fun a => a.artifacts.length)).sum := by
  have hmain : process_artifacts_from_answers pfx answers = demuxSpec pfx answers := by
    unfold process_artifacts_from_answers demuxSpec
    rw [processAnswersAux_eq]
    rfl
  refine ⟨hmain, ?_⟩
  rw [hmain]
  unfold demuxSpec
  simp [List.length_flatMap, Function.comp_def]

/-- The churn sub-block exists in the assembled sampler block exactly when
the churn argument is truthy. -/
theorem sampler_churn_isSome (args : GenerateArgs) :
    (buildSamplerParameters args).churn.isSome = (truthyOpt args.churn).isSome := by
  unfold buildSamplerParameters truthyOpt
  cases args.churn with
  | none => rfl
  | some c =>
    by_cases hc : c = 0 <;> simp [hc]

/-- The sigma sub-block is always present in the assembled sampler block. -/
theorem sampler_sigma_isSome (args : GenerateArgs) :
    (buildSamplerParameters args).sigma.isSome = true := rfl

/-- The schedule block exists exactly when an init image exists. -/
theorem scheduleOf_isSome (args : GenerateArgs) :
    (scheduleOf args).isSome = args.init_image.isSome := by
  unfold scheduleOf
  cases h : args.init_image <;> simp [h]

/-- The guidance block a successful `buildGuidance` produces exists exactly
when the preset is non-default or a strength was given. -/
theorem buildGuidance_isSome (args : GenerateArgs) (gpn : Option GuidancePromptNorm)
    (g : Option GuidanceParameters) (h : buildGuidance args gpn = .ok g) :
    g.isSome =
      ((args.guidance_preset != GUIDANCE_PRESET_NONE) || args.guidance_strength.isSome) := by
  unfold buildGuidance at h
  split at h
  · rename_i hcond
    match gpn with
    | some (.prompt p) =>
      simp only [bind, Except.bind, pure, Except.pure, Except.ok.injEq] at h
      rw [← h, hcond]; rfl
    | some .rawEmptyStr =>
      simp only [bind, Except.bind] at h
      cases h
    | none =>
      simp only [bind, Except.bind, pure, Except.pure, Except.ok.injEq] at h
      rw [← h, hcond]; rfl
  · rename_i hcond
    simp only [Except.ok.injEq] at h
    rw [← h]
    simp at hcond
    simp [hcond]

/-- The hi-res-fix block exists exactly when the flag or the out-of-square
fraction was supplied. -/
theorem buildHires_isSome (args : GenerateArgs) :
    (buildHires args).isSome = (args.hires_fix.isSome || args.hires_oos_fraction.isSome) := by
  unfold buildHires
  cases hf : args.hires_fix <;> cases ho : args.hires_oos_fraction <;> simp [hf, ho]

/-- C4 counterexample: at `c4args` the schedule block is absent although
its start field was supplied (no init image), the churn block is absent
although its tmin field was supplied, the guidance block is absent
although its cut count was supplied, and the sigma block is present
although none of its fields was supplied. -/
theorem subblock_claim_counterexample :
    ∃ res, generate (fun n => n) 0 c4args = .ok res ∧
      c4args.start_schedule = 7/10 ∧
      c4args.churn_tmin = some (1/2) ∧
      c4args.guidance_cuts = 3 ∧
      c4args.init_image = none ∧ c4args.churn = none ∧
      c4args.sigma_min = none ∧ c4args.sigma_max = none ∧ c4args.karras_rho = none ∧
      res.image_parameters.parameters.map
          (fun sp => (sp.schedule, sp.sampler.churn, sp.sampler.sigma.isSome, sp.guidance))
        = [(none, none, true, none)] :=
  ⟨_, rfl, rfl, rfl, rfl, rfl, rfl, rfl, rfl, rfl, rfl⟩

/-- C4 (amended): in a successful run the schedule block is present iff an
init image exists; the churn block iff the churn value itself is truthy;
the sigma block always (even with every sigma field absent); the guidance
block iff the preset is non-default or a strength was given; the
hi-res-fix block iff the flag or the out-of-square fraction was given. -/
theorem subblock_presence (us : Nat → Nat) (r : Nat) (args : GenerateArgs)
    (res : GenerateResult) (hok : generate us r args = .ok res) :
    res.image_parameters.parameters.map
        (fun sp => (sp.schedule.isSome, sp.sampler.churn.isSome,
                    sp.sampler.sigma.isSome, sp.guidance.isSome)) =
      [(args.init_image.isSome,
        (truthyOpt args.churn).isSome,
        true,
        (args.guidance_preset != GUIDANCE_PRESET_NONE) || args.guidance_strength.isSome)] ∧
    res.image_parameters.hires.isSome =
      (args.hires_fix.isSome || args.hires_oos_fraction.isSome) := by
  obtain ⟨ps0, gpn, guidance, hps, hgpn, hg, hres⟩ := generate_ok_parts us r args res hok
  subst hres
  constructor
  · simp [assembledImageParameters, scheduleOf_isSome, sampler_churn_isSome,
      sampler_sigma_isSome, buildGuidance_isSome args gpn guidance hg]
  · simp [assembledImageParameters, buildHires_isSome]

/-- C4 witness: the amended presence conditions evaluated at `c4wargs`. -/
theorem subblock_presence_witness :
    generate (fun n => n) 0 c4wargs = .ok (resultOf (fun n => n) 0 c4wargs) ∧
    ((resultOf (fun n => n) 0 c4wargs).image_parameters.parameters.map
        (fun sp => (sp.schedule.isSome, sp.sampler.churn.isSome,
                    sp.sampler.sigma.isSome, sp.guidance.isSome)) =
      [(c4wargs.init_image.isSome,
        (truthyOpt c4wargs.churn).isSome,
        true,
        (c4wargs.guidance_preset != GUIDANCE_PRESET_NONE) || c4wargs.guidance_strength.isSome)] ∧
     (resultOf (fun n => n) 0 c4wargs).image_parameters.hires.isSome =
       (c4wargs.hires_fix.isSome || c4wargs.hires_oos_fraction.isSome)) :=
  ⟨rfl, subblock_presence (fun n => n) 0 c4wargs (resultOf (fun n => n) 0 c4wargs) rfl⟩

/-- C6 counterexample: at `c6args` the supplied churn value 0.0 is dropped
from the sampler block (truthiness, not suppliedness, decides inclusion),
and a sigma sub-block appears although no sigma field was supplied - so
the block does not consist of exactly the supplied fields plus cfg_scale. -/
theorem sampler_claim_counterexample :
    ∃ res, generate (fun n => n) 0 c6args = .ok res ∧
      c6args.churn = some 0 ∧
      c6args.sigma_min = none ∧ c6args.sigma_max = none ∧ c6args.karras_rho = none ∧
      res.image_parameters.parameters.map (fun sp => (sp.sampler.churn, sp.sampler.sigma))
        = [(none, some { sigma_min := none, sigma_max := none, karras_rho := none })] :=
  ⟨_, rfl, rfl, rfl, rfl, rfl, rfl⟩

/-- C6 (amended): the assembled sampler block carries `cfg_scale` always;
`eta` and `noise_type` iff supplied truthy (non-None and nonzero); the
churn sub-block iff the churn value is truthy, with tmin/tmax inside it
iff truthy; and always a sigma sub-block populated with exactly the truthy
sigma fields.  No absent field appears with a placeholder value. -/
theorem sampler_block_fields (us : Nat → Nat) (r : Nat) (args : GenerateArgs)
    (res : GenerateResult) (hok : generate us r args = .ok res) :
    res.image_parameters.parameters.map (fun sp => sp.sampler) =
      [{ cfg_scale := args.cfg_scale
         eta := if args.eta = 0 then none else some args.eta
         noise_type := match args.noise_type with
                       | some n => if n = 0 then none else some n
                       | none => none
         churn := match args.churn with
                  | some c => if c = 0 then none
                              else some { churn := c
                                          churn_tmin := truthyOpt args.churn_tmin
                                          churn_tmax := truthyOpt args.churn_tmax }
                  | none => none
         sigma := some { sigma_min := truthyOpt args.sigma_min
                         sigma_max := truthyOpt args.sigma_max
                         karras_rho := truthyOpt args.karras_rho } }] := by
  obtain ⟨ps0, gpn, guidance, hps, hgpn, hg, hres⟩ := generate_ok_parts us r args res hok
  subst hres
  simp [assembledImageParameters, buildSamplerParameters]

/-- C6 witness: the amended sampler-block contents evaluated at `c6wargs`. -/
theorem sampler_block_fields_witness :
    generate (fun n => n) 0 c6wargs = .ok (resultOf (fun n => n) 0 c6wargs) ∧
    (resultOf (fun n => n) 0 c6wargs).image_parameters.parameters.map (fun sp => sp.sampler) =
      [{ cfg_scale := c6wargs.cfg_scale
         eta := if c6wargs.eta = 0 then none else some c6wargs.eta
         noise_type := match c6wargs.noise_type with
                       | some n => if n = 0 then none else some n
                       | none => none
         churn := match c6wargs.churn with
                  | some c => if c = 0 then none
                              else some { churn := c
                                          churn_tmin := truthyOpt c6wargs.churn_tmin
                                          churn_tmax := truthyOpt c6wargs.churn_tmax }
                  | none => none
         sigma := some { sigma_min := truthyOpt c6wargs.sigma_min
                         sigma_max := truthyOpt c6wargs.sigma_max
                         karras_rho := truthyOpt c6wargs.karras_rho } }] :=
  ⟨rfl, sampler_block_fields (fun n => n) 0 c6wargs (resultOf (fun n => n) 0 c6wargs) rfl⟩

/-- C7: with prompt and init image both absent, or a mask image supplied
without an init image, `generate` fails with the InvalidArgument-class
error in its validation prologue - before any prompt is normalized or
built - and no request is handed to the transport. -/
theorem generate_validation_errors (us : Nat → Nat) (r : Nat) (args : GenerateArgs)
    (eng rid : String)
    (h : (args.prompt = none ∧ args.init_image = none) ∨
         (args.mask_image.isSome = true ∧ args.init_image = none)) :
    generate us r args = .error .invalidArgument ∧
    emittedRequests us r args eng rid = [] := by
  have herr : generate us r args = .error .invalidArgument := by
    unfold generate
    rcases h with ⟨hp, hi⟩ | ⟨hm, hi⟩
    · simp [hp, hi]
    · cases hp : args.prompt <;> simp [hp, hi, hm]
  exact ⟨herr, by simp [emittedRequests, herr]⟩

/-- C7 witness: the default arguments (no prompt, no init image) and, for
the second disjunct shape, nothing else is needed - validation fails and
nothing is emitted. -/
theorem generate_validation_witness :
    generate (fun n => n) 0 ({} : GenerateArgs) = .error .invalidArgument ∧
    emittedRequests (fun n => n) 0 ({} : GenerateArgs) "engine" "rid" = [] :=
  generate_validation_errors (fun n => n) 0 {} "engine" "rid" (Or.inl ⟨rfl, rfl⟩)

/-- C3 counterexample: at `c3args` the guidance block is constructed and
its single instance carries NO prompt (the field is unset), although the
main prompt of the request is the text prompt "hello" - the client does
not default the guidance prompt to the main prompt. -/
theorem guidance_prompt_counterexample :
    ∃ res, generate (fun n => n) 0 c3args = .ok res ∧
      c3args.guidance_prompt = none ∧
      res.prompts = [{ text := some "hello" }] ∧
      res.image_parameters.parameters.map
          (fun sp => sp.guidance.map (fun g => g.instances.map (fun i => i.prompt)))
        = [some [none]] :=
  ⟨_, rfl, rfl, rfl, rfl⟩

/-- C3 (amended): whenever the guidance block is constructed and the caller
supplied no guidance prompt, the single guidance instance's prompt field is
left unset (None); the client performs no defaulting to the main prompt. -/
theorem guidance_prompt_unset (us : Nat → Nat) (r : Nat) (args : GenerateArgs)
    (res : GenerateResult)
    (hok : generate us r args = .ok res)
    (hgp : args.guidance_prompt = none)
    (hcond : ((args.guidance_preset != GUIDANCE_PRESET_NONE)
                || args.guidance_strength.isSome) = true) :
    res.image_parameters.parameters.map
        (fun sp => sp.guidance.map (fun g => g.instances.map (fun i => i.prompt)))
      = [some [none]] := by
  obtain ⟨ps0, gpn, guidance, hps, hgpn, hg, hres⟩ := generate_ok_parts us r args res hok
  subst hres
  rw [hgp] at hgpn
  simp only [normalizeGuidancePrompt, Except.ok.injEq] at hgpn
  subst hgpn
  unfold buildGuidance at hg
  simp only [hcond, if_true, bind, Except.bind, pure, Except.pure, Except.ok.injEq] at hg
  subst hg
  simp [assembledImageParameters]

/-- C3 witness: the amended guidance-prompt behavior at `c3args`. -/
theorem guidance_prompt_unset_witness :
    generate (fun n => n) 0 c3args = .ok (resultOf (fun n => n) 0 c3args) ∧
    c3args.guidance_prompt = none ∧
    ((c3args.guidance_preset != GUIDANCE_PRESET_NONE)
       || c3args.guidance_strength.isSome) = true ∧
    (resultOf (fun n => n) 0 c3args).image_parameters.parameters.map
        (fun sp => sp.guidance.map (fun g => g.instances.map (fun i => i.prompt)))
      = [some [none]] :=
  ⟨rfl, rfl, rfl,
    guidance_prompt_unset (fun n => n) 0 c3args (resultOf (fun n => n) 0 c3args) rfl rfl rfl⟩

/-- C5 counterexample: at `c5args` a depth image is supplied, yet the
assembled prompt sequence contains no depth-map prompt at all - the whole
depth handling lives inside the init-image branch. -/
theorem depth_prompt_counterexample :
    ∃ res, generate (fun n => n) 0 c5args = .ok res ∧
      c5args.depth_image = some (Image.file 1) ∧
      c5args.init_image = none ∧
      res.prompts.filter isDepthPrompt = [] :=
  ⟨_, rfl, rfl, rfl, rfl⟩

/-- C5 (amended): depth prompts are appended only when an init image is
present.  In that case the prompt sequence is the normalized prompts, the
negative prompt, the init-image prompt, the mask prompt (if any), then a
direct depth-image prompt iff a depth image was supplied and a synthesized
depth-inference reference iff depth_from_image is set (both when both are
given), then the LoRA prompts.  With no init image, nothing is appended
beyond the normalized, negative and LoRA prompts - even if a depth image
was supplied or depth inference requested. -/
theorem depth_prompt_assembly (us : Nat → Nat) (r : Nat) (args : GenerateArgs)
    (res : GenerateResult) (im : Image) (ps0 : List Prompt)
    (hok : generate us r args = .ok res)
    (hps : normalizePrompts args.prompt = .ok ps0) :
    (args.init_image = some im →
      res.prompts =
        ps0 ++ negativePromptList args.negative_prompt
          ++ (mk_image_prompt (us 0) im true false false false
               :: ((match args.mask_image with
                    | some mim => [mk_image_prompt (us 1) mim false true false false]
                    | none => if args.mask_from_image_alpha then [maskAlphaPrompt (us 0)] else [])
                   ++ ((match args.depth_image with
                        | some dim => [mk_image_prompt
                             (us (if args.mask_image.isSome then 2 else 1)) dim false false true false]
                        | none => [])
                       ++ (if args.depth_from_image then [depthRefPrompt (us 0)] else []))))
          ++ loraPromptList args.lora) ∧
    (args.init_image = none →
      res.prompts = ps0 ++ negativePromptList args.negative_prompt
        ++ loraPromptList args.lora) := by
  obtain ⟨ps0', gpn, guidance, hps', hgpn, hg, hres⟩ := generate_ok_parts us r args res hok
  rw [hps] at hps'
  injection hps' with hpe
  subst hpe
  subst hres
  constructor
  · intro hinit
    simp [initSectionPrompts, hinit]
  · intro hinit
    simp [initSectionPrompts, hinit]

/-- C5 witness: the amended depth-prompt assembly at `c5wargs` (both depth
prompts appear, direct first, then the reference). -/
theorem depth_prompt_assembly_witness :
    generate (fun n => n) 0 c5wargs = .ok (resultOf (fun n => n) 0 c5wargs) ∧
    ((c5wargs.init_image = some (Image.file 1) →
      (resultOf (fun n => n) 0 c5wargs).prompts =
        [{ text := some "w" }] ++ negativePromptList c5wargs.negative_prompt
          ++ (mk_image_prompt 0 (Image.file 1) true false false false
               :: ((match c5wargs.mask_image with
                    | some mim => [mk_image_prompt 1 mim false true false false]
                    | none => if c5wargs.mask_from_image_alpha then [maskAlphaPrompt 0] else [])
                   ++ ((match c5wargs.depth_image with
                        | some dim => [mk_image_prompt
                             (if c5wargs.mask_image.isSome then 2 else 1) dim false false true false]
                        | none => [])
                       ++ (if c5wargs.depth_from_image then [depthRefPrompt 0] else []))))
          ++ loraPromptList c5wargs.lora) ∧
     (c5wargs.init_image = none →
      (resultOf (fun n => n) 0 c5wargs).prompts =
        [{ text := some "w" }] ++ negativePromptList c5wargs.negative_prompt
          ++ loraPromptList c5wargs.lora)) :=
  ⟨rfl, depth_prompt_assembly (fun n => n) 0 c5wargs (resultOf (fun n => n) 0 c5wargs)
    (Image.file 1) [{ text := some "w" }] rfl rfl⟩

/-- A LoRA prompt never carries a mask-typed artifact. -/
theorem isMaskPrompt_lora (path : String) (w : List Rat) :
    isMaskPrompt (lora_to_prompt path w).1 = false := by
  match w with
  | [] => rfl
  | [a] => rfl
  | a :: b :: rest => rfl

/-- No LoRA prompt survives a mask filter. -/
theorem loraPromptList_filter_mask (l : Option (List (String × List Rat))) :
    (loraPromptList l).filter isMaskPrompt = [] := by
  cases l with
  | none => rfl
  | some entries =>
    rw [List.filter_eq_nil_iff]
    intro p hp
    obtain ⟨pw, _, rfl⟩ := List.mem_map.mp hp
    simp [isMaskPrompt_lora]

/-- C8: with `mask_from_image_alpha` set, an init image present and no
direct mask image, the assembled sequence contains the init-image prompt
immediately followed by the synthesized mask prompt; that mask prompt's
artifact is a reference (no inline binary, no own UUID) to the init
prompt's UUID at stage after-adjustments, carrying exactly two adjustments
in order - the channel split to the alpha channel, then the invert - and
no further mask prompt follows it. -/
theorem mask_alpha_reference_prompt (us : Nat → Nat) (r : Nat) (args : GenerateArgs)
    (res : GenerateResult) (im : Image) (ps0 : List Prompt)
    (hok : generate us r args = .ok res)
    (hinit : args.init_image = some im)
    (hmask : args.mask_image = none)
    (halpha : args.mask_from_image_alpha = true)
    (hps : normalizePrompts args.prompt = .ok ps0) :
    ∃ post,
      res.prompts =
        (ps0 ++ negativePromptList args.negative_prompt)
          ++ (mk_image_prompt (us 0) im true false false false
               :: maskAlphaPrompt (us 0) :: post) ∧
      (mk_image_prompt (us 0) im true false false false).artifact.map (fun a => a.uuid)
        = some (some (us 0)) ∧
      maskAlphaPrompt (us 0) =
        { artifact := some
            { type := ArtifactType.mask, uuid := none, binary := none,
              ref := some { uuid := us 0, stage := ArtifactStage.afterAdjustments },
              adjustments :=
                [ImageAdjustment.channels
                   { r := Channel.a, g := Channel.a, b := Channel.a, a := Channel.discard },
                 ImageAdjustment.invert],
              lora := none } } ∧
      isMaskPrompt (maskAlphaPrompt (us 0)) = true ∧
      post.filter isMaskPrompt = [] := by
  obtain ⟨ps0', gpn, guidance, hps', hgpn, hg, hres⟩ := generate_ok_parts us r args res hok
  rw [hps] at hps'
  injection hps' with hpe
  subst hpe
  subst hres
  refine ⟨((match args.depth_image with
            | some dim => [mk_image_prompt (us 1) dim false false true false]
            | none => [])
           ++ (if args.depth_from_image then [depthRefPrompt (us 0)] else []))
          ++ loraPromptList args.lora, ?_, rfl, rfl, rfl, ?_⟩
  · simp [initSectionPrompts, hinit, hmask, halpha]
  · rcases hd : args.depth_image with _ | dim <;> rcases hdf : args.depth_from_image <;>
      simp [List.filter_append, loraPromptList_filter_mask, isMaskPrompt,
        mk_image_prompt, depthRefPrompt, ref_to_prompt]

/-- C8 witness: the alpha-mask reference prompt at `c8wargs`. -/
theorem mask_alpha_reference_prompt_witness :
    generate (fun n => n) 0 c8wargs = .ok (resultOf (fun n => n) 0 c8wargs) ∧
    c8wargs.init_image = some (Image.file 3) ∧
    c8wargs.mask_image = none ∧
    c8wargs.mask_from_image_alpha = true ∧
    (∃ post,
      (resultOf (fun n => n) 0 c8wargs).prompts =
        ([{ text := some "w" }] ++ negativePromptList c8wargs.negative_prompt)
          ++ (mk_image_prompt 0 (Image.file 3) true false false false
               :: maskAlphaPrompt 0 :: post) ∧
      (mk_image_prompt 0 (Image.file 3) true false false false).artifact.map (fun a => a.uuid)
        = some (some 0) ∧
      maskAlphaPrompt 0 =
        { artifact := some
            { type := ArtifactType.mask, uuid := none, binary := none,
              ref := some { uuid := 0, stage := ArtifactStage.afterAdjustments },
              adjustments :=
                [ImageAdjustment.channels
                   { r := Channel.a, g := Channel.a, b := Channel.a, a := Channel.discard },
                 ImageAdjustment.invert],
              lora := none } } ∧
      isMaskPrompt (maskAlphaPrompt 0) = true ∧
      post.filter isMaskPrompt = []) :=
  ⟨rfl, rfl, rfl, rfl,
    mask_alpha_reference_prompt (fun n => n) 0 c8wargs (resultOf (fun n => n) 0 c8wargs)
      (Image.file 3) [{ text := some "w" }] rfl rfl rfl rfl rfl⟩
